import Mathlib

/-!
Verification of the hardware buffer management subsystem declared in
`CamelotRenderer/Include/CmHardwareBufferManager.h` (classes
`HardwareBufferManagerBase` and `HardwareBufferManager`).

Shallow embedding conventions:
* C++ pointers (`HardwareVertexBuffer*`, `HardwareIndexBuffer*`,
  `VertexBufferBinding*`) are modelled as `Nat` identities.
* The `set<...>` registry members become `Finset Nat`.
* Stateful member functions become explicit state-passing functions on a
  `HardwareBufferManagerBase` record; fallible operations return `Except`.
* The bodies of the Base class's member functions live in a `.cpp` file that
  is not part of the sources at hand (the header only declares them), so each
  such operation is modelled from the spec, as flagged in its doc comment.
  The inline bodies of the `HardwareBufferManager` delegate wrapper ARE in
  the header (lines 150-185) and are translated directly.
-/

namespace CamelotEngine

/-- `HardwareBuffer::Usage` flags (referenced at CmHardwareBufferManager.h:112;
the enumeration itself lives in `CmHardwareBuffer.h`, outside the sources; the
registry logic treats it as opaque data). -/
inductive Usage where
  | hbuStatic
  | hbuDynamic
  | hbuStaticWriteOnly
  | hbuDynamicWriteOnly
deriving DecidableEq, Repr

/-- `HardwareIndexBuffer::IndexType` (referenced at CmHardwareBufferManager.h:123):
16-bit or 32-bit indices. -/
inductive IndexType where
  | it16bit
  | it32bit
deriving DecidableEq, Repr

/-- Byte size of one index of the given type. -/
def IndexType.indexSize : IndexType → Nat
  | .it16bit => 2
  | .it32bit => 4

/-- A hardware vertex buffer handle as observable through this subsystem:
its identity (the pointer) and the attributes fixed at creation.
`sizeInBytes` is the size the buffer reports. -/
structure HardwareVertexBuffer where
  id : Nat
  vertexSize : Nat
  numVerts : Nat
  sizeInBytes : Nat
  usage : Usage
  streamOut : Bool
deriving DecidableEq, Repr

/-- A hardware index buffer handle as observable through this subsystem. -/
structure HardwareIndexBuffer where
  id : Nat
  itype : IndexType
  numIndexes : Nat
  sizeInBytes : Nat
  usage : Usage
deriving DecidableEq, Repr

/-- A vertex declaration: ordered element list; the default factory
implementation constructs it empty.  Elements are opaque here. -/
structure VertexDeclaration where
  elements : List Nat
deriving DecidableEq, Repr

/-- Error taxonomy of the subsystem (spec §7): registry inconsistency is a
programming error reported as an invariant violation. -/
inductive CmError where
  | invariantViolation
deriving DecidableEq, Repr

/-- State of `HardwareBufferManagerBase` (CmHardwareBufferManager.h:57-138):
the three registry members declared at lines 68-72.
`mVertexBuffers : VertexBufferList` (line 68),
`mIndexBuffers : IndexBufferList` (line 69),
`mVertexBufferBindings : VertexBufferBindingList` (line 72).
Note: line 67 declares a `ConstantBufferList` typedef but the class declares
no member of that type, so no constant-buffer registry exists in the state. -/
structure HardwareBufferManagerBase where
  mVertexBuffers : Finset Nat
  mIndexBuffers : Finset Nat
  mVertexBufferBindings : Finset Nat
deriving DecidableEq

/-- The state established by the `HardwareBufferManagerBase()` constructor:
all registries empty. -/
def HardwareBufferManagerBase.init : HardwareBufferManagerBase :=
  { mVertexBuffers := ∅, mIndexBuffers := ∅, mVertexBufferBindings := ∅ }

/-- A fresh identity for a newly allocated object: distinct from every
identity currently in the given registry (models a fresh pointer). -/
def freshId (s : Finset Nat) : Nat :=
  s.sup id + 1

namespace HardwareBufferManagerBase

/-- Modelled from the spec: `createVertexBuffer` (CmHardwareBufferManager.h:111-112)
is pure virtual; its body is supplied by a backend outside these sources.  Spec
§4.1: on success it returns a shared handle to a newly allocated buffer of
`vertexSize * numVerts` bytes, and the new buffer is registered in the
manager's vertex-buffer registry.  This models the success path of a backend
able to satisfy the request. -/
def createVertexBuffer (s : HardwareBufferManagerBase) (vertexSize numVerts : Nat)
    (usage : Usage) (streamOut : Bool) : HardwareVertexBuffer × HardwareBufferManagerBase :=
  let bid := freshId s.mVertexBuffers
  ({ id := bid, vertexSize := vertexSize, numVerts := numVerts,
     sizeInBytes := vertexSize * numVerts, usage := usage, streamOut := streamOut },
   { s with mVertexBuffers := insert bid s.mVertexBuffers })

/-- Modelled from the spec: `createIndexBuffer` (CmHardwareBufferManager.h:122-124)
is pure virtual; same sharing/registration contract as `createVertexBuffer`
(spec §4.1), with `indexType` either 16- or 32-bit. -/
def createIndexBuffer (s : HardwareBufferManagerBase) (itype : IndexType)
    (numIndexes : Nat) (usage : Usage) : HardwareIndexBuffer × HardwareBufferManagerBase :=
  let bid := freshId s.mIndexBuffers
  ({ id := bid, itype := itype, numIndexes := numIndexes,
     sizeInBytes := itype.indexSize * numIndexes, usage := usage },
   { s with mIndexBuffers := insert bid s.mIndexBuffers })

/-- Modelled from the spec: the body of `createVertexDeclaration`
(CmHardwareBufferManager.h:127) is in the missing `.cpp`; spec §4.1: the
default implementation constructs an empty declaration, the manager acts only
as a factory and records nothing. -/
def createVertexDeclaration (s : HardwareBufferManagerBase) :
    VertexDeclaration × HardwareBufferManagerBase :=
  ({ elements := [] }, s)

/-- Modelled from the spec: the body of `createVertexBufferBinding`
(CmHardwareBufferManager.h:130) is in the missing `.cpp`; spec §4.1: creates
a new binding and registers it; exclusively owned by this manager thereafter. -/
def createVertexBufferBinding (s : HardwareBufferManagerBase) :
    Nat × HardwareBufferManagerBase :=
  let b := freshId s.mVertexBufferBindings
  (b, { s with mVertexBufferBindings := insert b s.mVertexBufferBindings })

/-- Modelled from the spec: the body of `destroyVertexBufferBinding`
(CmHardwareBufferManager.h:132) is in the missing `.cpp`; spec §4.1: removes
the binding from the registry and releases it; fails (precondition violation)
if the binding was not created by this manager. -/
def destroyVertexBufferBinding (s : HardwareBufferManagerBase) (binding : Nat) :
    Except CmError HardwareBufferManagerBase :=
  if binding ∈ s.mVertexBufferBindings then
    .ok { s with mVertexBufferBindings := s.mVertexBufferBindings.erase binding }
  else
    .error .invariantViolation

/-- Modelled from the spec: the body of `destroyAllBindings`
(CmHardwareBufferManager.h:75) is in the missing `.cpp`; spec §4.1: destroys
and clears every registered binding. -/
def destroyAllBindings (s : HardwareBufferManagerBase) : HardwareBufferManagerBase :=
  { s with mVertexBufferBindings := ∅ }

/-- Modelled from the spec: the body of `_notifyVertexBufferDestroyed`
(CmHardwareBufferManager.h:135) is in the missing `.cpp`; spec §4.1: invoked
by a vertex buffer as it dies to remove itself from the registry; no
observable side effect beyond registry removal. -/
def notifyVertexBufferDestroyed (s : HardwareBufferManagerBase) (buf : Nat) :
    HardwareBufferManagerBase :=
  { s with mVertexBuffers := s.mVertexBuffers.erase buf }

/-- Modelled from the spec: the body of `_notifyIndexBufferDestroyed`
(CmHardwareBufferManager.h:137) is in the missing `.cpp`; spec §4.1: the
index-buffer counterpart of `notifyVertexBufferDestroyed`. -/
def notifyIndexBufferDestroyed (s : HardwareBufferManagerBase) (buf : Nat) :
    HardwareBufferManagerBase :=
  { s with mIndexBuffers := s.mIndexBuffers.erase buf }

end HardwareBufferManagerBase

/-- State of the delegate wrapper `HardwareBufferManager`
(CmHardwareBufferManager.h:141-186).  It inherits `HardwareBufferManagerBase`
(so it carries its own registry members, the `toHardwareBufferManagerBase`
part) and holds the owned backend `mImpl` (line 144). -/
structure HardwareBufferManager extends HardwareBufferManagerBase where
  mImpl : HardwareBufferManagerBase
deriving DecidableEq

/-- The state established by `HardwareBufferManager(HardwareBufferManagerBase* imp)`
(CmHardwareBufferManager.h:146): the inherited Base constructor leaves the own
registries empty, and `mImpl` is the supplied backend. -/
def HardwareBufferManager.init (imp : HardwareBufferManagerBase) : HardwareBufferManager :=
  { toHardwareBufferManagerBase := HardwareBufferManagerBase.init, mImpl := imp }

namespace HardwareBufferManager

/-- Translated from CmHardwareBufferManager.h:150-153:
`return mImpl->createVertexBuffer(vertexSize, numVerts, usage, streamOut);`. -/
def createVertexBuffer (w : HardwareBufferManager) (vertexSize numVerts : Nat)
    (usage : Usage) (streamOut : Bool) : HardwareVertexBuffer × HardwareBufferManager :=
  let r := w.mImpl.createVertexBuffer vertexSize numVerts usage streamOut
  (r.1, { w with mImpl := r.2 })

/-- Translated from CmHardwareBufferManager.h:155-158:
`return mImpl->createIndexBuffer(itype, numIndexes, usage);`. -/
def createIndexBuffer (w : HardwareBufferManager) (itype : IndexType)
    (numIndexes : Nat) (usage : Usage) : HardwareIndexBuffer × HardwareBufferManager :=
  let r := w.mImpl.createIndexBuffer itype numIndexes usage
  (r.1, { w with mImpl := r.2 })

/-- Translated from CmHardwareBufferManager.h:161-164:
`return mImpl->createVertexDeclaration();`. -/
def createVertexDeclaration (w : HardwareBufferManager) :
    VertexDeclaration × HardwareBufferManager :=
  let r := w.mImpl.createVertexDeclaration
  (r.1, { w with mImpl := r.2 })

/-- Translated from CmHardwareBufferManager.h:167-170:
`return mImpl->createVertexBufferBinding();`. -/
def createVertexBufferBinding (w : HardwareBufferManager) :
    Nat × HardwareBufferManager :=
  let r := w.mImpl.createVertexBufferBinding
  (r.1, { w with mImpl := r.2 })

/-- Translated from CmHardwareBufferManager.h:172-175:
`mImpl->destroyVertexBufferBinding(binding);` (any failure propagates). -/
def destroyVertexBufferBinding (w : HardwareBufferManager) (binding : Nat) :
    Except CmError HardwareBufferManager :=
  match w.mImpl.destroyVertexBufferBinding binding with
  | .ok impl' => .ok { w with mImpl := impl' }
  | .error e => .error e

/-- Translated from CmHardwareBufferManager.h:177-180:
`mImpl->_notifyVertexBufferDestroyed(buf);`. -/
def notifyVertexBufferDestroyed (w : HardwareBufferManager) (buf : Nat) :
    HardwareBufferManager :=
  { w with mImpl := w.mImpl.notifyVertexBufferDestroyed buf }

/-- Translated from CmHardwareBufferManager.h:182-185:
`mImpl->_notifyIndexBufferDestroyed(buf);`. -/
def notifyIndexBufferDestroyed (w : HardwareBufferManager) (buf : Nat) :
    HardwareBufferManager :=
  { w with mImpl := w.mImpl.notifyIndexBufferDestroyed buf }

end HardwareBufferManager

/-- The public operations of the manager interface, as abstract events.
Identities carried by destruction events are the pointer identities. -/
inductive MOp where
  | createVB (vertexSize numVerts : Nat) (usage : Usage) (streamOut : Bool)
  | createIB (itype : IndexType) (numIndexes : Nat) (usage : Usage)
  | createDecl
  | createBinding
  | destroyBinding (b : Nat)
  | notifyVB (b : Nat)
  | notifyIB (b : Nat)
deriving DecidableEq, Repr

/-- Effect of one operation on a `HardwareBufferManagerBase` state, discarding
returned handles.  A failed `destroyBinding` leaves the state unchanged
(the failure is a reported invariant violation, not a state change). -/
def MOp.apply (s : HardwareBufferManagerBase) : MOp → HardwareBufferManagerBase
  | .createVB vs nv u so => (s.createVertexBuffer vs nv u so).2
  | .createIB it ni u => (s.createIndexBuffer it ni u).2
  | .createDecl => s.createVertexDeclaration.2
  | .createBinding => s.createVertexBufferBinding.2
  | .destroyBinding b =>
      match s.destroyVertexBufferBinding b with
      | .ok s' => s'
      | .error _ => s
  | .notifyVB b => s.notifyVertexBufferDestroyed b
  | .notifyIB b => s.notifyIndexBufferDestroyed b

/-- Effect of a sequence of operations, applied left to right. -/
def MOp.applyAll (s : HardwareBufferManagerBase) : List MOp → HardwareBufferManagerBase
  | [] => s
  | op :: ops => MOp.applyAll (op.apply s) ops

/-- Effect of one public operation invoked on the delegate wrapper, discarding
returned handles.  A failed `destroyBinding` leaves the wrapper unchanged. -/
def MOp.applyW (w : HardwareBufferManager) : MOp → HardwareBufferManager
  | .createVB vs nv u so => (w.createVertexBuffer vs nv u so).2
  | .createIB it ni u => (w.createIndexBuffer it ni u).2
  | .createDecl => w.createVertexDeclaration.2
  | .createBinding => w.createVertexBufferBinding.2
  | .destroyBinding b =>
      match w.destroyVertexBufferBinding b with
      | .ok w' => w'
      | .error _ => w
  | .notifyVB b => w.notifyVertexBufferDestroyed b
  | .notifyIB b => w.notifyIndexBufferDestroyed b

/-- Effect of a sequence of operations on the wrapper, applied left to right. -/
def MOp.applyAllW (w : HardwareBufferManager) : List MOp → HardwareBufferManager
  | [] => w
  | op :: ops => MOp.applyAllW (op.applyW w) ops

/-- The three kinds of buffers the spec speaks about. -/
inductive BufferKind where
  | vertex
  | index
  | constant
deriving DecidableEq, Repr

/-- Translated from the member declarations of `HardwareBufferManagerBase`
(CmHardwareBufferManager.h:65-69): the registry member, if any, holding the
live buffers of a given kind.  `mVertexBuffers` (line 68) and `mIndexBuffers`
(line 69) are declared; line 67 declares the `ConstantBufferList` typedef but
the class declares no member of that type, so constant buffers have no
registry. -/
def HardwareBufferManagerBase.bufferRegistry (s : HardwareBufferManagerBase) :
    BufferKind → Option (Finset Nat)
  | .vertex => some s.mVertexBuffers
  | .index => some s.mIndexBuffers
  | .constant => none

/-- Combined state of the manager together with the set of objects currently
alive through it (buffers whose last reference has not been released, bindings
not yet destroyed).  The live sets are ghost state used to state the registry
invariant. -/
structure SysState where
  mgr : HardwareBufferManagerBase
  liveVertexBuffers : Finset Nat
  liveIndexBuffers : Finset Nat
  liveBindings : Finset Nat
deriving DecidableEq

/-- The initial system: a freshly constructed manager, nothing alive. -/
def SysState.init : SysState :=
  { mgr := HardwareBufferManagerBase.init, liveVertexBuffers := ∅,
    liveIndexBuffers := ∅, liveBindings := ∅ }

/-- The lifecycle events that touch the registries. -/
inductive SysOp where
  | createVB (vertexSize numVerts : Nat) (usage : Usage) (streamOut : Bool)
  | createIB (itype : IndexType) (numIndexes : Nat) (usage : Usage)
  | createBinding
  | destroyBinding (b : Nat)
  | destroyAllBindings
  | releaseLastRefVB (b : Nat)
  | releaseLastRefIB (b : Nat)
deriving DecidableEq, Repr

/-- Modelled from the spec: the object lifecycle around the manager (spec §3,
§4.1; the bodies live in the missing `.cpp`).  Creation brings a new object to
life and registers it; releasing the last reference to a buffer destroys it,
and the dying buffer invokes its destruction notification exactly once;
`destroyVertexBufferBinding` destroys the exclusively-owned binding and
deregisters it (on failure nothing changes); `destroyAllBindings` destroys
every registered binding. -/
def SysOp.apply (s : SysState) : SysOp → SysState
  | .createVB vs nv u so =>
      let r := s.mgr.createVertexBuffer vs nv u so
      { s with mgr := r.2, liveVertexBuffers := insert r.1.id s.liveVertexBuffers }
  | .createIB it ni u =>
      let r := s.mgr.createIndexBuffer it ni u
      { s with mgr := r.2, liveIndexBuffers := insert r.1.id s.liveIndexBuffers }
  | .createBinding =>
      let r := s.mgr.createVertexBufferBinding
      { s with mgr := r.2, liveBindings := insert r.1 s.liveBindings }
  | .destroyBinding b =>
      match s.mgr.destroyVertexBufferBinding b with
      | .ok m' => { s with mgr := m', liveBindings := s.liveBindings.erase b }
      | .error _ => s
  | .destroyAllBindings =>
      { s with mgr := s.mgr.destroyAllBindings,
               liveBindings := s.liveBindings \ s.mgr.mVertexBufferBindings }
  | .releaseLastRefVB b =>
      { s with mgr := s.mgr.notifyVertexBufferDestroyed b,
               liveVertexBuffers := s.liveVertexBuffers.erase b }
  | .releaseLastRefIB b =>
      { s with mgr := s.mgr.notifyIndexBufferDestroyed b,
               liveIndexBuffers := s.liveIndexBuffers.erase b }

/-- The registry invariant: each registry holds exactly the objects of its
kind currently alive through the manager (since registries are sets, each
live object appears in its registry exactly once). -/
def SysInv (s : SysState) : Prop :=
  s.liveVertexBuffers = s.mgr.mVertexBuffers
  ∧ s.liveIndexBuffers = s.mgr.mIndexBuffers
  ∧ s.liveBindings = s.mgr.mVertexBufferBindings

instance (s : SysState) : Decidable (SysInv s) := by
  unfold SysInv
  infer_instance

/-- The data members of a `HardwareBufferManager` object, its inherited
`HardwareBufferManagerBase` subobject's members included. -/
inductive ManagerMember where
  | mVertexBuffers
  | mIndexBuffers
  | mVertexBufferBindings
  | mImpl
deriving DecidableEq, Repr

/-- Whether a member is one of the registries the WARNING comment at
CmHardwareBufferManager.h:60-64 is about. -/
def ManagerMember.isRegistry : ManagerMember → Bool
  | .mImpl => false
  | _ => true

/-- Translated from the source: the members of the full manager object in
declaration/construction order.  The Base subobject declares
`mVertexBuffers` (line 68), `mIndexBuffers` (line 69) and
`mVertexBufferBindings` (line 72) and no other data member; the derived
wrapper adds `mImpl` (line 144), and in C++ the base subobject's members
precede the derived class's members in construction order. -/
def declarationOrder : List ManagerMember :=
  [.mVertexBuffers, .mIndexBuffers, .mVertexBufferBindings, .mImpl]

/-- C++ teardown semantics: members are destroyed in reverse of their
construction (declaration) order. -/
def destructionOrder : List ManagerMember :=
  declarationOrder.reverse

/-! Helper lemmas, shared across the claim theorems below. -/

/-- A fresh identity is new: it is not in the registry it was chosen against. -/
theorem freshId_not_mem (s : Finset Nat) : freshId s ∉ s := by
  intro h
  have hle : id (freshId s) ≤ s.sup id := Finset.le_sup h
  simp only [id_eq, freshId] at hle
  omega

/-- A registered vertex buffer stays registered under any operation other than
its own destruction notification. -/
theorem mem_vertexBuffers_apply (b : Nat) (s : HardwareBufferManagerBase) (op : MOp)
    (hop : op ≠ MOp.notifyVB b) (hb : b ∈ s.mVertexBuffers) :
    b ∈ (op.apply s).mVertexBuffers := by
  cases op with
  | createVB vs nv u so =>
      exact Finset.mem_insert_of_mem hb
  | createIB it ni u => exact hb
  | createDecl => exact hb
  | createBinding => exact hb
  | destroyBinding b' =>
      simp only [MOp.apply, HardwareBufferManagerBase.destroyVertexBufferBinding]
      by_cases h : b' ∈ s.mVertexBufferBindings <;> simp [h, hb]
  | notifyVB b' =>
      have hne : b ≠ b' := by
        intro h
        subst h
        exact hop rfl
      simp only [MOp.apply, HardwareBufferManagerBase.notifyVertexBufferDestroyed,
        Finset.mem_erase]
      exact ⟨hne, hb⟩
  | notifyIB b' => exact hb

/-- A registered vertex buffer stays registered across any operation sequence
that never notifies its destruction. -/
theorem mem_vertexBuffers_applyAll (b : Nat) (s : HardwareBufferManagerBase)
    (ops : List MOp) (hops : ∀ o ∈ ops, o ≠ MOp.notifyVB b)
    (hb : b ∈ s.mVertexBuffers) :
    b ∈ (MOp.applyAll s ops).mVertexBuffers := by
  induction ops generalizing s with
  | nil => exact hb
  | cons op ops ih =>
      exact ih (op.apply s)
        (fun o ho => hops o (List.mem_cons_of_mem _ ho))
        (mem_vertexBuffers_apply b s op (hops op (List.mem_cons_self _ _)) hb)

/-- Every wrapper operation leaves the wrapper's own inherited Base part
(its registries) untouched. -/
theorem applyW_toBase (w : HardwareBufferManager) (op : MOp) :
    (op.applyW w).toHardwareBufferManagerBase = w.toHardwareBufferManagerBase := by
  cases op with
  | destroyBinding b =>
      simp only [MOp.applyW, HardwareBufferManager.destroyVertexBufferBinding]
      cases w.mImpl.destroyVertexBufferBinding b <;> rfl
  | createVB vs nv u so => rfl
  | createIB it ni u => rfl
  | createDecl => rfl
  | createBinding => rfl
  | notifyVB b => rfl
  | notifyIB b => rfl

/-- Operation sequences on the wrapper never change its own inherited Base part. -/
theorem applyAllW_toBase (w : HardwareBufferManager) (ops : List MOp) :
    (MOp.applyAllW w ops).toHardwareBufferManagerBase = w.toHardwareBufferManagerBase := by
  induction ops generalizing w with
  | nil => rfl
  | cons op ops ih => rw [MOp.applyAllW, ih, applyW_toBase]

/-! Claim theorems. -/

/-- C1: every public operation of the `HardwareBufferManager` wrapper
(`createVertexBuffer`, `createIndexBuffer`, `createVertexDeclaration`,
`createVertexBufferBinding`, `destroyVertexBufferBinding`, and the two
destruction-notification methods) produces the identical observable effect as
invoking the same operation directly on the owned backend `mImpl`: the value
returned is exactly the backend's return value, the resulting backend state is
exactly the state the direct call produces (for the fallible destroy the whole
`Except` outcome is the backend's outcome), and the wrapper performs no
additional validation and keeps no independent state — its own inherited Base
registries (`toHardwareBufferManagerBase`) are untouched by every operation. -/
theorem wrapper_forwards_every_operation (w : HardwareBufferManager)
    (vs nv : Nat) (u : Usage) (so : Bool) (it : IndexType) (ni : Nat)
    (b bv bi : Nat) :
    ((w.createVertexBuffer vs nv u so).1 = (w.mImpl.createVertexBuffer vs nv u so).1
      ∧ (w.createVertexBuffer vs nv u so).2.mImpl = (w.mImpl.createVertexBuffer vs nv u so).2
      ∧ (w.createVertexBuffer vs nv u so).2.toHardwareBufferManagerBase
          = w.toHardwareBufferManagerBase)
    ∧ ((w.createIndexBuffer it ni u).1 = (w.mImpl.createIndexBuffer it ni u).1
      ∧ (w.createIndexBuffer it ni u).2.mImpl = (w.mImpl.createIndexBuffer it ni u).2
      ∧ (w.createIndexBuffer it ni u).2.toHardwareBufferManagerBase
          = w.toHardwareBufferManagerBase)
    ∧ (w.createVertexDeclaration.1 = w.mImpl.createVertexDeclaration.1
      ∧ w.createVertexDeclaration.2.mImpl = w.mImpl.createVertexDeclaration.2
      ∧ w.createVertexDeclaration.2.toHardwareBufferManagerBase
          = w.toHardwareBufferManagerBase)
    ∧ (w.createVertexBufferBinding.1 = w.mImpl.createVertexBufferBinding.1
      ∧ w.createVertexBufferBinding.2.mImpl = w.mImpl.createVertexBufferBinding.2
      ∧ w.createVertexBufferBinding.2.toHardwareBufferManagerBase
          = w.toHardwareBufferManagerBase)
    ∧ (w.destroyVertexBufferBinding b
        = Except.map (fun impl' => { w with mImpl := impl' })
            (w.mImpl.destroyVertexBufferBinding b))
    ∧ ((w.notifyVertexBufferDestroyed bv).mImpl = w.mImpl.notifyVertexBufferDestroyed bv
      ∧ (w.notifyVertexBufferDestroyed bv).toHardwareBufferManagerBase
          = w.toHardwareBufferManagerBase)
    ∧ ((w.notifyIndexBufferDestroyed bi).mImpl = w.mImpl.notifyIndexBufferDestroyed bi
      ∧ (w.notifyIndexBufferDestroyed bi).toHardwareBufferManagerBase
          = w.toHardwareBufferManagerBase) := by
  refine ⟨⟨rfl, rfl, rfl⟩, ⟨rfl, rfl, rfl⟩, ⟨rfl, rfl, rfl⟩, ⟨rfl, rfl, rfl⟩,
    ?_, ⟨rfl, rfl⟩, ⟨rfl, rfl⟩⟩
  simp only [HardwareBufferManager.destroyVertexBufferBinding]
  cases w.mImpl.destroyVertexBufferBinding b <;> rfl

/-- C2: for `vertexSize > 0` and `numVerts > 0` (and a backend able to satisfy
the request), `createVertexBuffer` returns a handle to a newly allocated
buffer (its identity was not previously registered) whose reported size is
`vertexSize * numVerts` bytes, the new buffer is in the vertex-buffer registry
immediately after creation, and it stays in the registry across every
subsequent operation sequence that does not destroy it (does not contain its
destruction notification). -/
theorem createVertexBuffer_size_and_registered (s : HardwareBufferManagerBase)
    (vs nv : Nat) (u : Usage) (so : Bool) (ops : List MOp)
    (hvs : 0 < vs) (hnv : 0 < nv)
    (hops : ∀ o ∈ ops, o ≠ MOp.notifyVB (s.createVertexBuffer vs nv u so).1.id) :
    (s.createVertexBuffer vs nv u so).1.sizeInBytes = vs * nv
    ∧ (s.createVertexBuffer vs nv u so).1.id ∉ s.mVertexBuffers
    ∧ (s.createVertexBuffer vs nv u so).1.id ∈ (s.createVertexBuffer vs nv u so).2.mVertexBuffers
    ∧ (s.createVertexBuffer vs nv u so).1.id
        ∈ (MOp.applyAll (s.createVertexBuffer vs nv u so).2 ops).mVertexBuffers := by
  refine ⟨rfl, freshId_not_mem s.mVertexBuffers, Finset.mem_insert_self _ _, ?_⟩
  exact mem_vertexBuffers_applyAll _ _ ops hops (Finset.mem_insert_self _ _)

/-- C2 witness: the spec's own scenario — 32 bytes per vertex, 100 vertices,
static write-only — on a freshly constructed manager, followed by a sequence
of operations not destroying the new buffer. -/
theorem createVertexBuffer_size_and_registered_witness :
    (0 : Nat) < 32 ∧ (0 : Nat) < 100
    ∧ ((HardwareBufferManagerBase.init.createVertexBuffer 32 100
          Usage.hbuStaticWriteOnly false).1.sizeInBytes = 32 * 100
      ∧ (HardwareBufferManagerBase.init.createVertexBuffer 32 100
          Usage.hbuStaticWriteOnly false).1.id ∉ HardwareBufferManagerBase.init.mVertexBuffers
      ∧ (HardwareBufferManagerBase.init.createVertexBuffer 32 100
          Usage.hbuStaticWriteOnly false).1.id
          ∈ (HardwareBufferManagerBase.init.createVertexBuffer 32 100
              Usage.hbuStaticWriteOnly false).2.mVertexBuffers
      ∧ (HardwareBufferManagerBase.init.createVertexBuffer 32 100
          Usage.hbuStaticWriteOnly false).1.id
          ∈ (MOp.applyAll (HardwareBufferManagerBase.init.createVertexBuffer 32 100
              Usage.hbuStaticWriteOnly false).2
              [MOp.createBinding, MOp.notifyVB 999]).mVertexBuffers) :=
  ⟨by decide, by decide,
    createVertexBuffer_size_and_registered HardwareBufferManagerBase.init 32 100
      Usage.hbuStaticWriteOnly false [MOp.createBinding, MOp.notifyVB 999]
      (by decide) (by decide) (by decide)⟩

/-- C3: when a registered buffer's destruction is notified
(`_notifyVertexBufferDestroyed` / `_notifyIndexBufferDestroyed`), the buffer
is no longer in its registry, the registry's cardinality has decreased by
exactly one, and there is no observable side effect beyond registry removal:
the other two registries are left exactly as they were (the notification does
not free the buffer — in this model it touches nothing but the one registry). -/
theorem notify_removes_exactly_one (s : HardwareBufferManagerBase) (vb ib : Nat)
    (hv : vb ∈ s.mVertexBuffers) (hi : ib ∈ s.mIndexBuffers) :
    (vb ∉ (s.notifyVertexBufferDestroyed vb).mVertexBuffers
      ∧ (s.notifyVertexBufferDestroyed vb).mVertexBuffers.card + 1 = s.mVertexBuffers.card
      ∧ (s.notifyVertexBufferDestroyed vb).mIndexBuffers = s.mIndexBuffers
      ∧ (s.notifyVertexBufferDestroyed vb).mVertexBufferBindings = s.mVertexBufferBindings)
    ∧ (ib ∉ (s.notifyIndexBufferDestroyed ib).mIndexBuffers
      ∧ (s.notifyIndexBufferDestroyed ib).mIndexBuffers.card + 1 = s.mIndexBuffers.card
      ∧ (s.notifyIndexBufferDestroyed ib).mVertexBuffers = s.mVertexBuffers
      ∧ (s.notifyIndexBufferDestroyed ib).mVertexBufferBindings = s.mVertexBufferBindings) := by
  refine ⟨⟨Finset.not_mem_erase _ _, Finset.card_erase_add_one hv, rfl, rfl⟩,
    ⟨Finset.not_mem_erase _ _, Finset.card_erase_add_one hi, rfl, rfl⟩⟩

/-- C3 witness: a manager tracking vertex buffer 5, index buffer 7 and
binding 9; notifying destruction of buffer 5 and of buffer 7. -/
theorem notify_removes_exactly_one_witness :
    (5 ∈ ({5} : Finset Nat) ∧ 7 ∈ ({7} : Finset Nat))
    ∧ ((5 ∉ (HardwareBufferManagerBase.notifyVertexBufferDestroyed
          ⟨{5}, {7}, {9}⟩ 5).mVertexBuffers
      ∧ (HardwareBufferManagerBase.notifyVertexBufferDestroyed
          ⟨{5}, {7}, {9}⟩ 5).mVertexBuffers.card + 1
          = (HardwareBufferManagerBase.mk {5} {7} {9}).mVertexBuffers.card
      ∧ (HardwareBufferManagerBase.notifyVertexBufferDestroyed
          ⟨{5}, {7}, {9}⟩ 5).mIndexBuffers = (HardwareBufferManagerBase.mk {5} {7} {9}).mIndexBuffers
      ∧ (HardwareBufferManagerBase.notifyVertexBufferDestroyed
          ⟨{5}, {7}, {9}⟩ 5).mVertexBufferBindings
          = (HardwareBufferManagerBase.mk {5} {7} {9}).mVertexBufferBindings)
    ∧ (7 ∉ (HardwareBufferManagerBase.notifyIndexBufferDestroyed
          ⟨{5}, {7}, {9}⟩ 7).mIndexBuffers
      ∧ (HardwareBufferManagerBase.notifyIndexBufferDestroyed
          ⟨{5}, {7}, {9}⟩ 7).mIndexBuffers.card + 1
          = (HardwareBufferManagerBase.mk {5} {7} {9}).mIndexBuffers.card
      ∧ (HardwareBufferManagerBase.notifyIndexBufferDestroyed
          ⟨{5}, {7}, {9}⟩ 7).mVertexBuffers = (HardwareBufferManagerBase.mk {5} {7} {9}).mVertexBuffers
      ∧ (HardwareBufferManagerBase.notifyIndexBufferDestroyed
          ⟨{5}, {7}, {9}⟩ 7).mVertexBufferBindings
          = (HardwareBufferManagerBase.mk {5} {7} {9}).mVertexBufferBindings)) :=
  ⟨⟨by decide, by decide⟩,
    notify_removes_exactly_one ⟨{5}, {7}, {9}⟩ 5 7 (by decide) (by decide)⟩

/-- C4: creating a binding and immediately destroying the returned binding
succeeds and restores the manager state exactly — in particular the binding
registry equals its state before the creation, for every starting state. -/
theorem binding_create_destroy_roundtrip (s : HardwareBufferManagerBase) :
    s.createVertexBufferBinding.2.destroyVertexBufferBinding
        s.createVertexBufferBinding.1 = Except.ok s := by
  simp only [HardwareBufferManagerBase.createVertexBufferBinding,
    HardwareBufferManagerBase.destroyVertexBufferBinding, Finset.mem_insert_self,
    if_true, Finset.erase_insert (freshId_not_mem s.mVertexBufferBindings)]

/-- C5: for every state — zero, one, or any number of live bindings —
`destroyAllBindings` leaves the binding registry empty (count 0), and a
subsequent `destroyVertexBufferBinding` on any binding handle whatsoever, in
particular on any of the formerly registered ones, fails as an invariant
violation. -/
theorem destroyAllBindings_empties_registry (s : HardwareBufferManagerBase)
    (b : Nat) :
    s.destroyAllBindings.mVertexBufferBindings = ∅
    ∧ s.destroyAllBindings.mVertexBufferBindings.card = 0
    ∧ s.destroyAllBindings.destroyVertexBufferBinding b
        = Except.error CmError.invariantViolation :=
  ⟨rfl, rfl, rfl⟩

/-- C5 witness: the spec's scenario — three live bindings (1, 2, 3), then
`destroyAllBindings`; destroying original binding 2 afterwards fails — and
the zero-bindings case on a freshly constructed manager. -/
theorem destroyAllBindings_empties_registry_witness :
    ((HardwareBufferManagerBase.mk ∅ ∅ {1, 2, 3}).destroyAllBindings.mVertexBufferBindings = ∅
      ∧ (HardwareBufferManagerBase.mk ∅ ∅ {1, 2, 3}).destroyAllBindings.mVertexBufferBindings.card = 0
      ∧ (HardwareBufferManagerBase.mk ∅ ∅ {1, 2, 3}).destroyAllBindings.destroyVertexBufferBinding 2
          = Except.error CmError.invariantViolation)
    ∧ (HardwareBufferManagerBase.init.destroyAllBindings.mVertexBufferBindings = ∅
      ∧ HardwareBufferManagerBase.init.destroyAllBindings.mVertexBufferBindings.card = 0
      ∧ HardwareBufferManagerBase.init.destroyAllBindings.destroyVertexBufferBinding 5
          = Except.error CmError.invariantViolation) :=
  ⟨destroyAllBindings_empties_registry ⟨∅, ∅, {1, 2, 3}⟩ 2,
    destroyAllBindings_empties_registry HardwareBufferManagerBase.init 5⟩

/-- C6: destroying a binding that is not registered with this manager fails
with an invariant violation, and by atomicity on error the state (every
registry) is left unmodified. -/
theorem destroy_unregistered_binding_fails (s : HardwareBufferManagerBase)
    (b : Nat) (hb : b ∉ s.mVertexBufferBindings) :
    s.destroyVertexBufferBinding b = Except.error CmError.invariantViolation
    ∧ MOp.apply s (MOp.destroyBinding b) = s := by
  constructor
  · simp [HardwareBufferManagerBase.destroyVertexBufferBinding, hb]
  · simp [MOp.apply, HardwareBufferManagerBase.destroyVertexBufferBinding, hb]

/-- C6 witness: destroying binding 4, never created by a manager whose
registry holds bindings 1 and 2, fails and changes nothing. -/
theorem destroy_unregistered_binding_fails_witness :
    4 ∉ ({1, 2} : Finset Nat)
    ∧ ((HardwareBufferManagerBase.mk ∅ ∅ {1, 2}).destroyVertexBufferBinding 4
        = Except.error CmError.invariantViolation
      ∧ MOp.apply ⟨∅, ∅, {1, 2}⟩ (MOp.destroyBinding 4) = ⟨∅, ∅, {1, 2}⟩) :=
  ⟨by decide, destroy_unregistered_binding_fails ⟨∅, ∅, {1, 2}⟩ 4 (by decide)⟩

/-- C7 counterexample: the claim says the manager base maintains registries
for three kinds of buffers (vertex, index, constant), but
`HardwareBufferManagerBase` declares no constant-buffer registry member —
line 67 only declares the `ConstantBufferList` typedef.  On the concrete
freshly constructed manager there is no registry for the constant kind. -/
theorem no_constantBuffer_registry :
    HardwareBufferManagerBase.init.bufferRegistry BufferKind.constant = none := rfl

/-- C7 (amended): the buffer manager base maintains live-resource registries
for two kinds of buffers — vertex buffers and index buffers — each tracking
the live instances of its kind created through this manager (creation
registers the new buffer in the registry of its kind); for constant buffers
only the list typedef is declared, no registry member exists. -/
theorem registries_vertex_and_index_only (s : HardwareBufferManagerBase)
    (vs nv ni : Nat) (u : Usage) (so : Bool) (it : IndexType) :
    s.bufferRegistry BufferKind.vertex = some s.mVertexBuffers
    ∧ s.bufferRegistry BufferKind.index = some s.mIndexBuffers
    ∧ s.bufferRegistry BufferKind.constant = none
    ∧ (s.createVertexBuffer vs nv u so).1.id
        ∈ (s.createVertexBuffer vs nv u so).2.mVertexBuffers
    ∧ (s.createIndexBuffer it ni u).1.id
        ∈ (s.createIndexBuffer it ni u).2.mIndexBuffers :=
  ⟨rfl, rfl, rfl, Finset.mem_insert_self _ _, Finset.mem_insert_self _ _⟩

/-- C8: the registry invariant — every buffer and binding currently alive
through the manager appears in its registry (exactly once, registries being
sets), and nothing else does — is preserved by every lifecycle event:
creation adds the object to both the live set and its registry, and each of
the two removal paths (explicit destroy for bindings, last-reference-release
destruction notification for buffers) removes it from both, so each entry is
removed exactly once over the object's lifetime. -/
theorem registry_invariant_preserved (s : SysState) (op : SysOp)
    (h : SysInv s) : SysInv (op.apply s) := by
  obtain ⟨hv, hi, hb⟩ := h
  cases op with
  | createVB vs nv u so =>
      refine ⟨?_, hi, hb⟩
      simp only [SysOp.apply, HardwareBufferManagerBase.createVertexBuffer]
      rw [hv]
  | createIB it ni u =>
      refine ⟨hv, ?_, hb⟩
      simp only [SysOp.apply, HardwareBufferManagerBase.createIndexBuffer]
      rw [hi]
  | createBinding =>
      refine ⟨hv, hi, ?_⟩
      simp only [SysOp.apply, HardwareBufferManagerBase.createVertexBufferBinding]
      rw [hb]
  | destroyBinding b =>
      by_cases hm : b ∈ s.mgr.mVertexBufferBindings
      · simp only [SysInv, SysOp.apply,
          HardwareBufferManagerBase.destroyVertexBufferBinding, if_pos hm]
        exact ⟨hv, hi, by rw [hb]⟩
      · simp only [SysInv, SysOp.apply,
          HardwareBufferManagerBase.destroyVertexBufferBinding, if_neg hm]
        exact ⟨hv, hi, hb⟩
  | destroyAllBindings =>
      refine ⟨hv, hi, ?_⟩
      simp only [SysOp.apply, HardwareBufferManagerBase.destroyAllBindings]
      rw [hb]
      exact Finset.sdiff_self _
  | releaseLastRefVB b =>
      refine ⟨?_, hi, hb⟩
      simp only [SysOp.apply, HardwareBufferManagerBase.notifyVertexBufferDestroyed]
      rw [hv]
  | releaseLastRefIB b =>
      refine ⟨hv, ?_, hb⟩
      simp only [SysOp.apply, HardwareBufferManagerBase.notifyIndexBufferDestroyed]
      rw [hi]

/-- C8 witness: the invariant holds of the initial system and is preserved
by a concrete vertex-buffer creation. -/
theorem registry_invariant_preserved_witness :
    SysInv SysState.init
    ∧ SysInv (SysOp.apply SysState.init
        (SysOp.createVB 32 100 Usage.hbuStaticWriteOnly false)) :=
  ⟨by decide,
    registry_invariant_preserved SysState.init
      (SysOp.createVB 32 100 Usage.hbuStaticWriteOnly false) (by decide)⟩

/-- C9: the three registry members are the first-declared members of the
owning manager object (they are exactly the leading run of `declarationOrder`),
so — members being destroyed in reverse declaration order — the only other
manager-owned state, the owned backend `mImpl`, is destroyed strictly before
each registry: every destruction notification fired while tearing down other
manager-owned state runs while the registries still exist. -/
theorem registries_declared_first_destroyed_last :
    declarationOrder.takeWhile ManagerMember.isRegistry
      = [ManagerMember.mVertexBuffers, ManagerMember.mIndexBuffers,
         ManagerMember.mVertexBufferBindings]
    ∧ List.indexOf ManagerMember.mImpl destructionOrder
        < List.indexOf ManagerMember.mVertexBuffers destructionOrder
    ∧ List.indexOf ManagerMember.mImpl destructionOrder
        < List.indexOf ManagerMember.mIndexBuffers destructionOrder
    ∧ List.indexOf ManagerMember.mImpl destructionOrder
        < List.indexOf ManagerMember.mVertexBufferBindings destructionOrder := by
  decide

/-- C10: starting from a freshly constructed wrapper, no sequence of wrapper
operations ever changes the wrapper's own inherited Base registries — they
stay exactly as the Base constructor left them, i.e. empty — only the owned
backend `mImpl` is ever mutated. -/
theorem wrapper_own_registries_stay_empty (imp : HardwareBufferManagerBase)
    (ops : List MOp) :
    (MOp.applyAllW (HardwareBufferManager.init imp) ops).toHardwareBufferManagerBase
        = HardwareBufferManagerBase.init
    ∧ (MOp.applyAllW (HardwareBufferManager.init imp) ops).mVertexBuffers = ∅
    ∧ (MOp.applyAllW (HardwareBufferManager.init imp) ops).mIndexBuffers = ∅
    ∧ (MOp.applyAllW (HardwareBufferManager.init imp) ops).mVertexBufferBindings = ∅ := by
  have h := applyAllW_toBase (HardwareBufferManager.init imp) ops
  refine ⟨h, ?_, ?_, ?_⟩ <;> rw [h] <;> rfl

end CamelotEngine
